import Mathlib

/-!
Verification of the rugby-stats metric extraction → normalization → scoring →
batch pipeline, shallowly embedded from the Python sources
(`src/rugby_stats/metrics.py`, `normalization.py`, `scoring.py`, `roles.py`,
`batch.py`).

Conventions of the embedding:
* Python JSON-like values are modelled by `Rugby.Json`; a Python `None` that
  a function *returns or stores* is modelled by `Option.none`, so a live
  `Json.null` never appears as a dictionary value (Python cannot distinguish
  a stored `None` from the embedded `Json.null`).
* Python float arithmetic is modelled over `ℚ`.  The decimal weight literals
  (`0.20`, `-0.15`, …) are exact rationals here; no claim below depends on
  binary floating-point rounding error.  `round(x, 2)` is modelled by
  `Rugby.round2` (rounding of `100*x` to an integer); no claim below depends
  on Python's tie-breaking at exact half-cent values.
* Fallible Python code (a `raise`) is modelled with `Except String`, the
  string holding the exception message.
-/

set_option autoImplicit false

namespace Rugby

/-- JSON-like Python value tree: dicts, lists, scalars (`metrics.py` operates
on `resp.json()` output). -/
inductive Json where
  | null
  | bool (b : Bool)
  | num (q : ℚ)
  | str (s : String)
  | arr (elems : List Json)
  | obj (fields : List (String × Json))

/-- One step of a `MetricPath`: Python `deep_get` parses `"a[0].b"` into
`[("key","a"), ("index",0), ("key","b")]`; we embed the parsed form.
Indices are `Int` because Python list indexing accepts negatives. -/
inductive PathPart where
  | key (k : String)
  | idx (i : Int)
deriving DecidableEq

/-- First-match association-list lookup, the model of Python `dict` access
(our embedded dicts have distinct keys, as Python dicts do). -/
def getField : List (String × Json) → String → Option Json
  | [], _ => none
  | (k, v) :: rest, target => if k = target then some v else getField rest target

/-- Python list indexing `xs[i]` returning `None` on `IndexError`
(negative indices count from the end as in Python). -/
def pyListGet (xs : List Json) (i : Int) : Option Json :=
  if 0 ≤ i then xs.get? i.toNat
  else if 0 ≤ (xs.length : Int) + i then xs.get? ((xs.length : Int) + i).toNat
  else none

/-- Collapse a retrieved Python `None` value into absence: `deep_get`
checks `if result is None: return None` after every step. -/
def denull : Option Json → Option Json
  | some Json.null => none
  | v => v

/-- The traversal loop of `deep_get` (`metrics.py` lines 75-90).  A `key`
step on a dict uses `.get` (missing key → `None` → absence); a `key` step
on a non-dict returns `None`; an `index` step on a list catches
`IndexError`; an `index` step on a NON-list value has no `else` branch in
the source, so the current value is left unchanged and traversal
continues with the next step. -/
def deepGo : Json → List PathPart → Option Json
  | cur, [] => some cur
  | cur, PathPart.key k :: rest =>
    match cur with
    | Json.obj fields =>
      match denull (getField fields k) with
      | none => none
      | some v => deepGo v rest
    | _ => none
  | cur, PathPart.idx i :: rest =>
    match cur with
    | Json.arr elems =>
      match denull (pyListGet elems i) with
      | none => none
      | some v => deepGo v rest
    | _ => deepGo cur rest

/-- `deep_get(obj, path)` (`metrics.py` lines 45-90) on the parsed path.
A `None` root yields `None` (absence) for every path. -/
def deep_get (obj : Json) (parts : List PathPart) : Option Json :=
  match obj with
  | Json.null => none
  | _ => deepGo obj parts

/-- Parsed form of the one declared candidate path per metric: every path in
`ALL_EXPECTED_METRICS` is
`"data.playerseasonstats[0].player_stats.playerStats.<group>.<field>"`. -/
def statPath (group field : String) : List PathPart :=
  [PathPart.key "data", PathPart.key "playerseasonstats", PathPart.idx 0,
   PathPart.key "player_stats", PathPart.key "playerStats",
   PathPart.key group, PathPart.key field]

/-- `UNSTRUCTURED_PLAY_METRICS` (`metrics.py` lines 16-22). -/
def UNSTRUCTURED_PLAY_METRICS : List (String × List (List PathPart)) :=
  [("carries", [statPath "attack" "carries"]),
   ("metres_made", [statPath "attack" "metresMade"]),
   ("offloads", [statPath "attack" "offload"]),
   ("clean_breaks", [statPath "attack" "cleanBreak"]),
   ("defenders_beaten", [statPath "attack" "defenderBeaten"])]

/-- `DEFENSIVE_METRICS` (`metrics.py` lines 24-30). -/
def DEFENSIVE_METRICS : List (String × List (List PathPart)) :=
  [("tackles", [statPath "defence" "tackle"]),
   ("missed_tackles", [statPath "defence" "missedTackle"]),
   ("turnovers_won", [statPath "defence" "turnoverWon"]),
   ("lineout_steals", [statPath "lineout" "lineoutSteals"]),
   ("tackle_success_pct", [statPath "defence" "percentTackleMade"])]

/-- `DISCIPLINE_METRICS` (`metrics.py` lines 32-36). -/
def DISCIPLINE_METRICS : List (String × List (List PathPart)) :=
  [("penalties_conceded", [statPath "discipline" "penaltyConceded"]),
   ("yellow_cards", [statPath "discipline" "yellowCard"]),
   ("red_cards", [statPath "discipline" "redCard"])]

/-- `ALL_EXPECTED_METRICS`: the merged table, in Python dict merge order. -/
def ALL_EXPECTED_METRICS : List (String × List (List PathPart)) :=
  UNSTRUCTURED_PLAY_METRICS ++ DEFENSIVE_METRICS ++ DISCIPLINE_METRICS

/-- The fixed 13-name metric vocabulary, in table order. -/
def metricVocabulary : List String :=
  ["carries", "metres_made", "offloads", "clean_breaks", "defenders_beaten",
   "tackles", "missed_tackles", "turnovers_won", "lineout_steals",
   "tackle_success_pct", "penalties_conceded", "yellow_cards", "red_cards"]

/-- The candidate-path loop of `extract_metrics`: first non-`None`
`deep_get` result wins; all-`None` yields absence. -/
def tryPaths (raw : Json) : List (List PathPart) → Option Json
  | [] => none
  | p :: rest =>
    match deep_get raw p with
    | some v => some v
    | none => tryPaths raw rest

/-- An `ExtractedMetrics` value: metric name ↦ value or `None`
(Python `extracted` dict; `none` is the explicit absence marker). -/
def ExtractedMetrics : Type := List (String × Option Json)

/-- `extract_metrics(raw_response)` (`metrics.py` lines 93-110). -/
def extract_metrics (raw : Json) : ExtractedMetrics :=
  ALL_EXPECTED_METRICS.map (fun entry => (entry.1, tryPaths raw entry.2))

/-- Python `extracted.get(metric)`: missing key and stored `None` both
give `None`. -/
def dictGet : ExtractedMetrics → String → Option Json
  | [], _ => none
  | (k, v) :: rest, target => if k = target then v else dictGet rest target

/-- Key-present lookup on an `ExtractedMetrics`-shaped dict: `some stored`
when the key exists (`stored` may itself be the absence marker `none`). -/
def lookupVal : ExtractedMetrics → String → Option (Option Json)
  | [], _ => none
  | (k, v) :: rest, target => if k = target then some v else lookupVal rest target

/-- Python `isinstance(val, (int, float))` together with the numeric value
used afterwards: `bool` is a subclass of `int` in Python (`True == 1`). -/
def toNum : Json → Option ℚ
  | Json.num q => some q
  | Json.bool b => some (if b then 1 else 0)
  | _ => none

/-- `round(x, 2)`: round to 2 decimal places. -/
def round2 (q : ℚ) : ℚ := ((round (100 * q) : ℤ) : ℚ) / 100

/-- Python's `val is not None and isinstance(val, (int, float))` test on a
retrieved dict entry, yielding the numeric value when it passes. -/
def toNumOpt : Option Json → Option ℚ
  | some v => toNum v
  | none => none

/-- The `normalizable` list of `normalize_metrics` (`normalization.py`
lines 44-55): counting metrics only; `tackle_success_pct`, `yellow_cards`
and `red_cards` are not in it. -/
def normalizable : List String :=
  ["carries", "metres_made", "offloads", "clean_breaks", "defenders_beaten",
   "tackles", "missed_tackles", "turnovers_won", "lineout_steals",
   "penalties_conceded"]

/-- One entry of a scaled view: present numeric values become
`round(val * factor, 2)`; non-numeric or absent values are stored
unchanged (`normalization.py` lines 61-66 / 73-78). -/
def scaleEntry (em : ExtractedMetrics) (factor : ℚ) (metric : String) : Option Json :=
  match dictGet em metric with
  | some v =>
    match toNum v with
    | some q => some (Json.num (round2 (q * factor)))
    | none => some v
  | none => none

/-- `NormalizedMetrics`: the dict built by `normalize_metrics`, with the
`notes` sub-dict flattened into its two possible entries. -/
structure NormalizedMetrics where
  raw : ExtractedMetrics
  per_80_min : ExtractedMetrics
  per_appearance : ExtractedMetrics
  normalization_applied : Option String
  notes_minutes : Option ℚ
  notes_appearances : Option Int

/-- Python `minutes_played and minutes_played > 0` on an optional float:
yields the value exactly when it is provided and positive. -/
def qOptPos : Option ℚ → Option ℚ
  | some m => if 0 < m then some m else none
  | none => none

/-- Python `appearances and appearances > 0` on an optional int. -/
def zOptPos : Option Int → Option Int
  | some a => if 0 < a then some a else none
  | none => none

/-- `normalize_metrics(extracted_metrics, minutes_played, appearances)`
(`normalization.py` lines 14-85).  The three branches are evaluated in the
source's strict order: minutes first, then appearances, else the flagged
raw basis (the flag being the distinguished `normalization_applied` string
plus a warning log, which has no observable value here). -/
def normalize_metrics (em : ExtractedMetrics) (minutes_played : Option ℚ)
    (appearances : Option Int) : NormalizedMetrics :=
  match qOptPos minutes_played with
  | some m =>
    { raw := em
      per_80_min := normalizable.map (fun metric => (metric, scaleEntry em (80 / m) metric))
      per_appearance := []
      normalization_applied := some "per_80_min"
      notes_minutes := some m
      notes_appearances := none }
  | none =>
    match zOptPos appearances with
    | some a =>
      { raw := em
        per_80_min := []
        per_appearance :=
          normalizable.map (fun metric => (metric, scaleEntry em (1 / (a : ℚ)) metric))
        normalization_applied := some "per_appearance"
        notes_minutes := none
        notes_appearances := some a }
    | none =>
      { raw := em
        per_80_min := []
        per_appearance := []
        normalization_applied := some "raw (no minutes or appearances)"
        notes_minutes := none
        notes_appearances := none }

/-- `UNSTRUCTURED_PLAY_WEIGHTS` (`scoring.py` lines 18-24). -/
def UNSTRUCTURED_PLAY_WEIGHTS : List (String × ℚ) :=
  [("carries", 0.20), ("metres_made", 0.25), ("offloads", 0.15),
   ("clean_breaks", 0.20), ("defenders_beaten", 0.20)]

/-- `DEFENSIVE_RELIABILITY_WEIGHTS` (`scoring.py` lines 26-31). -/
def DEFENSIVE_RELIABILITY_WEIGHTS : List (String × ℚ) :=
  [("tackles", 0.40), ("tackle_success_pct", 0.35),
   ("missed_tackles", -0.15), ("turnovers_won", 0.10)]

/-- `DISCIPLINE_RISK_WEIGHTS` (`scoring.py` lines 33-37). -/
def DISCIPLINE_RISK_WEIGHTS : List (String × ℚ) :=
  [("penalties_conceded", -0.50), ("yellow_cards", -2.0), ("red_cards", -5.0)]

/-- The three-entry composite blend weight vector (a Python dict with the
fixed keys `unstructured`, `defensive`, `discipline`). -/
structure BlendWeights where
  unstructured : ℚ
  defensive : ℚ
  discipline : ℚ
deriving DecidableEq, Inhabited

/-- `COMPOSITE_BLEND_WEIGHTS` (`scoring.py` lines 40-44). -/
def COMPOSITE_BLEND_WEIGHTS : BlendWeights :=
  { unstructured := 0.40, defensive := 0.40, discipline := 0.20 }

/-- Python `weights = weights or DEFAULT`: `None` and the empty dict are
falsy and fall back to the default table. -/
def resolveWeights (weights : Option (List (String × ℚ))) (dflt : List (String × ℚ)) :
    List (String × ℚ) :=
  match weights with
  | none => dflt
  | some [] => dflt
  | some l => l

/-- The per-metric scaling chain of `compute_unstructured_impact_score`
(`scoring.py` lines 64-76): linear benchmark curves clamped to [0,100];
unrecognised metric names pass through unscaled. -/
def unstructuredScale (metric : String) (val : ℚ) : ℚ :=
  if metric = "carries" then min 100 (max 0 (val / 60 * 100))
  else if metric = "metres_made" then min 100 (max 0 (val / 150 * 100))
  else if metric = "offloads" then min 100 (max 0 (val / 10 * 100))
  else if metric = "clean_breaks" then min 100 (max 0 (val / 8 * 100))
  else if metric = "defenders_beaten" then min 100 (max 0 (val / 15 * 100))
  else val

/-- The per-metric scaling chain of `compute_defensive_reliability_score`
(`scoring.py` lines 110-119); `tackle_success_pct` passes through (already
0-100). -/
def defensiveScale (metric : String) (val : ℚ) : ℚ :=
  if metric = "tackles" then min 100 (max 0 (val / 40 * 100))
  else if metric = "tackle_success_pct" then val
  else if metric = "missed_tackles" then min 100 (max 0 (val / 12 * 100))
  else if metric = "turnovers_won" then min 100 (max 0 (val / 6 * 100))
  else val

/-- `compute_discipline_risk_index` applies no scaling curve
(`scoring.py` line 151: `total_weighted += val * weight`). -/
def disciplineScale (_metric : String) (val : ℚ) : ℚ := val

/-- The accumulation loop shared by the three sub-score functions: a metric
with a present numeric value contributes `scale metric val * weight`;
absent or non-numeric values contribute nothing. -/
def weightedTotal (scale : String → ℚ → ℚ) (metrics : ExtractedMetrics) :
    List (String × ℚ) → ℚ
  | [] => 0
  | (metric, weight) :: rest =>
    (match toNumOpt (dictGet metrics metric) with
     | some v => scale metric v * weight
     | none => 0) + weightedTotal scale metrics rest

/-- The `components` breakdown recorded by each sub-score function: the
numeric value used, or `None` for an absent / non-numeric metric. -/
def scoreComponents (metrics : ExtractedMetrics) (weights : List (String × ℚ)) :
    List (String × Option ℚ) :=
  weights.map (fun entry => (entry.1, toNumOpt (dictGet metrics entry.1)))

/-- A sub-score `ScoreResult`: 0-100 value, per-metric component breakdown
(value used or explicit absence), human-readable method tag. -/
structure ScoreResult where
  score : ℚ
  components : List (String × Option ℚ)
  method : String
deriving DecidableEq

/-- `compute_unstructured_impact_score(metrics, weights)` (`scoring.py`
lines 47-89). -/
def compute_unstructured_impact_score (metrics : ExtractedMetrics)
    (weights : Option (List (String × ℚ))) : ScoreResult :=
  let w := resolveWeights weights UNSTRUCTURED_PLAY_WEIGHTS
  let total_weighted := weightedTotal unstructuredScale metrics w
  { score := round2 (max 0 (min 100 (total_weighted * 100)))
    components := scoreComponents metrics w
    method := "weighted attack metrics (0-100)" }

/-- `compute_defensive_reliability_score(metrics, weights)` (`scoring.py`
lines 92-131). -/
def compute_defensive_reliability_score (metrics : ExtractedMetrics)
    (weights : Option (List (String × ℚ))) : ScoreResult :=
  let w := resolveWeights weights DEFENSIVE_RELIABILITY_WEIGHTS
  let total_weighted := weightedTotal defensiveScale metrics w
  { score := round2 (max 0 (min 100 (total_weighted * 100)))
    components := scoreComponents metrics w
    method := "weighted defence metrics (0-100)" }

/-- `compute_discipline_risk_index(metrics, weights)` (`scoring.py` lines
134-164): pure negative costs, floored at -100, added to the clean-record
baseline of 100. -/
def compute_discipline_risk_index (metrics : ExtractedMetrics)
    (weights : Option (List (String × ℚ))) : ScoreResult :=
  let w := resolveWeights weights DISCIPLINE_RISK_WEIGHTS
  let total_weighted := weightedTotal disciplineScale metrics w
  let risk_penalty := max (-100) total_weighted
  { score := round2 (max 0 (min 100 (100 + risk_penalty)))
    components := scoreComponents metrics w
    method := "weighted discipline costs (0-100)" }

/-- The composite `ScoreResult` with its three-way proportional breakdown. -/
structure CompositeResult where
  score : ℚ
  breakdown_unstructured : ℚ
  breakdown_defensive : ℚ
  breakdown_discipline : ℚ
  method : String
deriving DecidableEq

/-- `compute_composite_contribution_score(u, d, di, weights)` (`scoring.py`
lines 167-197).  The composite value itself is guarded
(`total / total_weights if total_weights > 0 else 0`), but the breakdown
divides by `total_weights` unguarded, so a weight vector summing to exactly
zero raises `ZeroDivisionError` in Python; we model the raise with
`Except.error`.  (A `BlendWeights` is a non-empty dict, hence truthy, so
`weights or COMPOSITE_BLEND_WEIGHTS` is `Option.getD`.) -/
def compute_composite_contribution_score (unstructured_score defensive_score
    discipline_score : ℚ) (weights : Option BlendWeights) :
    Except String CompositeResult :=
  let w := weights.getD COMPOSITE_BLEND_WEIGHTS
  let total := unstructured_score * w.unstructured + defensive_score * w.defensive
    + discipline_score * w.discipline
  let total_weights := w.unstructured + w.defensive + w.discipline
  let composite := if 0 < total_weights then total / total_weights else 0
  let composite := max 0 (min 100 composite)
  if total_weights = 0 then
    Except.error "ZeroDivisionError: float division by zero"
  else
    Except.ok
      { score := round2 composite
        breakdown_unstructured := round2 (unstructured_score * w.unstructured / total_weights)
        breakdown_defensive := round2 (defensive_score * w.defensive / total_weights)
        breakdown_discipline := round2 (discipline_score * w.discipline / total_weights)
        method := "composite blend (attack 40%, defence 40%, discipline 20%)" }

/-- The four `ScoreResult`s returned by `compute_all_scores`. -/
structure AllScores where
  unstructured_impact : ScoreResult
  defensive_reliability : ScoreResult
  discipline_risk : ScoreResult
  composite_contribution : CompositeResult
deriving DecidableEq

/-- `compute_all_scores(normalized_metrics)` (`scoring.py` lines 200-238).
Note the signature: it takes ONLY the normalized-metrics dict — there is no
role or position parameter anywhere in `scoring.py`.  View selection uses
Python dict truthiness (non-empty `per_80_min` wins, then non-empty
`per_appearance`, else `raw`), and every sub-score call passes
`weights=None`, i.e. the global default weight tables. -/
def compute_all_scores (nm : NormalizedMetrics) : Except String AllScores :=
  let metrics_to_use :=
    match nm.per_80_min with
    | [] =>
      match nm.per_appearance with
      | [] => nm.raw
      | l => l
    | l => l
  let unstructured := compute_unstructured_impact_score metrics_to_use none
  let defensive := compute_defensive_reliability_score metrics_to_use none
  let discipline := compute_discipline_risk_index metrics_to_use none
  match compute_composite_contribution_score unstructured.score defensive.score
      discipline.score none with
  | Except.error e => Except.error e
  | Except.ok composite =>
    Except.ok
      { unstructured_impact := unstructured
        defensive_reliability := defensive
        discipline_risk := discipline
        composite_contribution := composite }

/-- Generic first-match association lookup (Python dict access / `in`). -/
def assocGet {α : Type} : List (String × α) → String → Option α
  | [], _ => none
  | (k, v) :: rest, target => if k = target then some v else assocGet rest target

/-- `POSITION_TO_ROLE` (`roles.py` lines 18-38): jersey number → role. -/
def POSITION_TO_ROLE : List (String × String) :=
  [("1", "FRONT_5"), ("2", "FRONT_5"), ("3", "FRONT_5"), ("4", "FRONT_5"),
   ("5", "FRONT_5"), ("6", "BACK_ROW"), ("7", "BACK_ROW"), ("8", "BACK_ROW"),
   ("9", "HALF_BACKS"), ("10", "HALF_BACKS"), ("11", "BACKS"), ("12", "BACKS"),
   ("13", "BACKS"), ("14", "BACKS"), ("15", "BACKS")]

/-- One role's four weight tables (`roles.py` `ROLE_WEIGHTS` values). -/
structure RoleWeights where
  unstructured : List (String × ℚ)
  defensive : List (String × ℚ)
  discipline : List (String × ℚ)
  composite_blend : BlendWeights
deriving DecidableEq, Inhabited

/-- `ROLE_WEIGHTS` (`roles.py` lines 43-144). -/
def ROLE_WEIGHTS : List (String × RoleWeights) :=
  [("FRONT_5",
    { unstructured := [("carries", 0.25), ("metres_made", 0.10), ("offloads", 0.10),
        ("clean_breaks", 0.10), ("defenders_beaten", 0.10)]
      defensive := [("tackles", 0.45), ("tackle_success_pct", 0.30),
        ("missed_tackles", -0.15), ("turnovers_won", 0.10)]
      discipline := [("penalties_conceded", -0.80), ("yellow_cards", -2.0),
        ("red_cards", -5.0)]
      composite_blend := { unstructured := 0.30, defensive := 0.50, discipline := 0.20 } }),
   ("BACK_ROW",
    { unstructured := [("carries", 0.30), ("metres_made", 0.15), ("offloads", 0.15),
        ("clean_breaks", 0.15), ("defenders_beaten", 0.15)]
      defensive := [("tackles", 0.40), ("tackle_success_pct", 0.30),
        ("missed_tackles", -0.15), ("turnovers_won", 0.15)]
      discipline := [("penalties_conceded", -0.50), ("yellow_cards", -2.0),
        ("red_cards", -5.0)]
      composite_blend := { unstructured := 0.40, defensive := 0.40, discipline := 0.20 } }),
   ("HALF_BACKS",
    { unstructured := [("carries", 0.15), ("metres_made", 0.15), ("offloads", 0.25),
        ("clean_breaks", 0.20), ("defenders_beaten", 0.25)]
      defensive := [("tackles", 0.35), ("tackle_success_pct", 0.35),
        ("missed_tackles", -0.15), ("turnovers_won", 0.15)]
      discipline := [("penalties_conceded", -0.50), ("yellow_cards", -2.0),
        ("red_cards", -5.0)]
      composite_blend := { unstructured := 0.45, defensive := 0.35, discipline := 0.20 } }),
   ("BACKS",
    { unstructured := [("carries", 0.20), ("metres_made", 0.30), ("offloads", 0.15),
        ("clean_breaks", 0.18), ("defenders_beaten", 0.17)]
      defensive := [("tackles", 0.30), ("tackle_success_pct", 0.35),
        ("missed_tackles", -0.20), ("turnovers_won", 0.10)]
      discipline := [("penalties_conceded", -0.30), ("yellow_cards", -2.0),
        ("red_cards", -5.0)]
      composite_blend := { unstructured := 0.50, defensive := 0.30, discipline := 0.20 } })]

/-- ASCII lower-casing of one character (`str.lower()` on the ASCII
position strings this system handles). -/
def asciiLowerChar (c : Char) : Char :=
  if 'A' ≤ c ∧ c ≤ 'Z' then Char.ofNat (c.toNat + 32) else c

/-- ASCII upper-casing of one character (`str.upper()`). -/
def asciiUpperChar (c : Char) : Char :=
  if 'a' ≤ c ∧ c ≤ 'z' then Char.ofNat (c.toNat - 32) else c

/-- `str.lower()` over the characters. -/
def asciiLower (l : List Char) : List Char := l.map asciiLowerChar

/-- `str.upper()` over the characters. -/
def asciiUpper (l : List Char) : List Char := l.map asciiUpperChar

/-- `str.strip()`: drop whitespace from both ends. -/
def pyStrip (l : List Char) : List Char :=
  ((l.dropWhile Char.isWhitespace).reverse.dropWhile Char.isWhitespace).reverse

/-- Leading-match test on character lists. -/
def charsStart : List Char → List Char → Bool
  | [], _ => true
  | _ :: _, [] => false
  | n :: ns, h :: hs => n = h && charsStart ns hs

/-- Infix test on character lists. -/
def charsInfix : List Char → List Char → Bool
  | needle, [] => needle.isEmpty
  | needle, h :: hs => charsStart needle (h :: hs) || charsInfix needle hs

/-- Python substring membership `needle in hay`. -/
def pySubstr (needle hay : String) : Bool :=
  charsInfix needle.data hay.data

/-- `str.replace(pattern, "")` for a non-empty pattern, scanning left to
right and deleting each non-overlapping occurrence; the fuel argument (the
hay length at entry suffices) keeps the recursion structural. -/
def removeAllFuel (pat : List Char) : Nat → List Char → List Char
  | 0, hay => hay
  | _ + 1, [] => []
  | fuel + 1, c :: rest =>
    if pat ≠ [] ∧ charsStart pat (c :: rest) then
      removeAllFuel pat fuel (List.drop (pat.length - 1) rest)
    else c :: removeAllFuel pat fuel rest

/-- `str.replace(pattern, "")` on character lists. -/
def pyRemoveAll (pat hay : List Char) : List Char :=
  removeAllFuel pat hay.length hay

/-- `get_role_from_position(position)` (`roles.py` lines 147-188).  The
fuzzy keyword literals are compared verbatim against the UPPER-cased
position string, exactly as the source does (so the lowercase keywords can
only ever match through their digit characters). -/
def get_role_from_position (position : Option String) : Option String :=
  match position with
  | none => none
  | some p =>
    if p = "" then none
    else
      let cs := asciiLower (pyStrip p.data)
      let cs :=
        if charsStart "no.".data cs then pyStrip (pyRemoveAll "no.".data cs)
        else if charsStart "no ".data cs then pyStrip (pyRemoveAll "no".data cs)
        else cs
      let position_str : String := String.mk cs
      match assocGet POSITION_TO_ROLE position_str with
      | some r => some r
      | none =>
        let position_upper : String := String.mk (asciiUpper cs)
        if (assocGet ROLE_WEIGHTS position_upper).isSome then some position_upper
        else if pySubstr "front" position_upper || pySubstr "prop" position_upper
            || pySubstr "hook" position_upper || pySubstr "lock" position_upper then
          some "FRONT_5"
        else if pySubstr "back_row" position_upper || pySubstr "flanker" position_upper
            || pySubstr "number" position_upper || pySubstr "openside" position_upper
            || pySubstr "blindside" position_upper || pySubstr "8" position_upper then
          some "BACK_ROW"
        else if pySubstr "half" position_upper || pySubstr "scrum" position_upper
            || pySubstr "fly" position_upper || pySubstr "9" position_upper
            || pySubstr "10" position_upper then
          some "HALF_BACKS"
        else if pySubstr "back" position_upper || pySubstr "wing" position_upper
            || pySubstr "centre" position_upper || pySubstr "full" position_upper
            || pySubstr "11" position_upper || pySubstr "12" position_upper
            || pySubstr "13" position_upper || pySubstr "14" position_upper
            || pySubstr "15" position_upper then
          some "BACKS"
        else none

/-- `get_role_weights(role)` (`roles.py` lines 191-204): an unknown, empty
or missing role falls back to the BACK_ROW table. -/
def get_role_weights (role : Option String) : RoleWeights :=
  match role with
  | none => (assocGet ROLE_WEIGHTS "BACK_ROW").getD default
  | some r =>
    if r = "" then (assocGet ROLE_WEIGHTS "BACK_ROW").getD default
    else
      match assocGet ROLE_WEIGHTS r with
      | some w => w
      | none => (assocGet ROLE_WEIGHTS "BACK_ROW").getD default

mutual
/-- Python `str()` of a JSON-like value, used for the recorded GraphQL
error message (`batch.py` line 58).  String quoting follows Python repr;
numeric rendering is by `ℚ` (no claim inspects these messages). -/
def pyStrOfJson : Json → String
  | Json.null => "None"
  | Json.bool true => "True"
  | Json.bool false => "False"
  | Json.num q => toString q
  | Json.str s => "\x27" ++ s ++ "\x27"
  | Json.arr xs => "[" ++ pyStrList xs ++ "]"
  | Json.obj fs => "\x7b" ++ pyStrFields fs ++ "\x7d"

/-- Comma-separated rendering of list elements. -/
def pyStrList : List Json → String
  | [] => ""
  | [x] => pyStrOfJson x
  | x :: y :: rest => pyStrOfJson x ++ ", " ++ pyStrList (y :: rest)

/-- Comma-separated rendering of dict entries. -/
def pyStrFields : List (String × Json) → String
  | [] => ""
  | [(k, v)] => "\x27" ++ k ++ "\x27: " ++ pyStrOfJson v
  | (k, v) :: e :: rest =>
    "\x27" ++ k ++ "\x27: " ++ pyStrOfJson v ++ ", " ++ pyStrFields (e :: rest)
end

/-- Outcome of the `fetch_player_season_stats` collaborator as observed by
`process_player`: a JSON body, a raised `RateLimitError` (with its optional
`retry_after`), or any other raised exception (message as `str(e)`). -/
inductive FetchOutcome where
  | ok (resp : Json)
  | rateLimited (retryAfter : Option Int) (msg : String)
  | exn (msg : String)

/-- The `"errors" in raw_response` check plus `str(raw_response["errors"])`
(`batch.py` lines 57-59) under Python semantics for each response shape:
`ok (some msg)` is the GraphQL-error branch, `ok none` proceeds, `error`
is an in-`try` `TypeError` (non-iterable response, or a response that is
not a dict being indexed by a string key). -/
def graphqlErrorsCheck (raw : Json) : Except String (Option String) :=
  match raw with
  | Json.obj fields =>
    match getField fields "errors" with
    | some v => Except.ok (some (pyStrOfJson v))
    | none => Except.ok none
  | Json.arr xs =>
    if xs.any (fun x => match x with | Json.str s => s = "errors" | _ => false) then
      Except.error "TypeError: list indices must be integers or slices, not str"
    else Except.ok none
  | Json.str s =>
    if pySubstr "errors" s then Except.error "TypeError: string indices must be integers"
    else Except.ok none
  | Json.null => Except.error "TypeError: argument of type \x27NoneType\x27 is not iterable"
  | Json.bool _ => Except.error "TypeError: argument of type \x27bool\x27 is not iterable"
  | Json.num _ => Except.error "TypeError: argument of type \x27int\x27 is not iterable"

/-- The scoring call made by the batch pipeline, `batch.py` line 74:
`compute_all_scores(normalized, player_position=position)`.  The callee
`compute_all_scores` (`scoring.py` line 200) accepts only
`normalized_metrics` — it has no `player_position` (or any role) parameter
and no `**kwargs` — so under Python call semantics this call raises
`TypeError` before the function body runs, for every input.  The embedding
therefore returns that error unconditionally. -/
def callComputeAllScores (_nm : NormalizedMetrics) (_position : Option String) :
    Except String AllScores :=
  Except.error
    "TypeError: compute_all_scores() got an unexpected keyword argument \x27player_position\x27"

/-- The per-player result dict accumulated by `BatchProcessor`: the fields
that `process_player` may set (`batch.py` lines 48-95). -/
structure PlayerRecord where
  player_id : String
  name : Option String
  raw_metrics : Option ExtractedMetrics
  normalized_metrics : Option NormalizedMetrics
  derived_metrics : Option AllScores
  position : Option (Option String)
  error : Option String
  rate_limited : Bool
  retry_after_seconds : Option Int

/-- The freshly-created `result = {"player_id": player_id}` dict. -/
def emptyRecord (player_id : String) : PlayerRecord :=
  { player_id := player_id, name := none, raw_metrics := none,
    normalized_metrics := none, derived_metrics := none, position := none,
    error := none, rate_limited := false, retry_after_seconds := none }

/-- Terminal state of one player: appended to `self.results` (success) or
`self.failures` (failure). -/
inductive ProcessOutcome where
  | success (r : PlayerRecord)
  | failure (r : PlayerRecord)

/-- `BatchProcessor.process_player` (`batch.py` lines 28-95), with the
fetch collaborator passed explicitly.  Every raise inside the `try` block
is caught: `RateLimitError` is recorded distinctly (the `retry_after`
hint only when truthy, i.e. non-zero); any other exception — including the
`TypeError` raised by the scoring call itself — is recorded as a generic
failure with its message, and the function returns normally. -/
def process_player (fetch : String → FetchOutcome) (player_id player_name : String)
    (minutes_played : Option ℚ) (appearances : Option Int)
    (position : Option String) : ProcessOutcome :=
  match fetch player_id with
  | FetchOutcome.rateLimited retryAfter msg =>
    ProcessOutcome.failure
      { emptyRecord player_id with
          error := some ("Rate limit: " ++ msg)
          rate_limited := true
          retry_after_seconds :=
            match retryAfter with
            | some n => if n = 0 then none else some n
            | none => none }
  | FetchOutcome.exn msg =>
    ProcessOutcome.failure { emptyRecord player_id with error := some msg }
  | FetchOutcome.ok raw =>
    match graphqlErrorsCheck raw with
    | Except.error msg =>
      ProcessOutcome.failure { emptyRecord player_id with error := some msg }
    | Except.ok (some errMsg) =>
      ProcessOutcome.failure { emptyRecord player_id with error := some errMsg }
    | Except.ok none =>
      let extracted := extract_metrics raw
      let normalized := normalize_metrics extracted minutes_played appearances
      match callComputeAllScores normalized position with
      | Except.error msg =>
        ProcessOutcome.failure
          { emptyRecord player_id with
              name := some player_name
              raw_metrics := some extracted
              normalized_metrics := some normalized
              error := some msg }
      | Except.ok derived =>
        ProcessOutcome.success
          { emptyRecord player_id with
              name := some player_name
              raw_metrics := some extracted
              normalized_metrics := some normalized
              derived_metrics := some derived
              position := some position }

/-- One entry of the `player_details` list (`detail.get("playerId")`,
`detail.get("position")`). -/
structure PlayerDetail where
  playerId : Option String
  position : Option String

/-- Python dict assignment (later entries overwrite earlier ones). -/
def insertReplace : List (String × String) → String → String → List (String × String)
  | [], k, v => [(k, v)]
  | (k0, v0) :: rest, k, v =>
    if k0 = k then (k, v) :: rest else (k0, v0) :: insertReplace rest k v

/-- The `position_lookup` construction of `process_batch` (`batch.py`
lines 129-135): entries with a truthy (non-empty) id and position. -/
def buildPositionLookup (details : List PlayerDetail) : List (String × String) :=
  details.foldl
    (fun acc d =>
      match d.playerId, d.position with
      | some pid, some pos =>
        if pid ≠ "" ∧ pos ≠ "" then insertReplace acc pid pos else acc
      | _, _ => acc)
    []

/-- The summary dict returned by `process_batch`. -/
structure BatchSummary where
  total : Nat
  successful : Nat
  failed : Nat
  results : List PlayerRecord
  failures : List PlayerRecord

/-- `BatchProcessor.process_batch` (`batch.py` lines 97-161).  The players
are processed strictly in order; the sub-batching into chunks of 5 only
inserts a `time.sleep` between chunks (never within one, never after the
last), which has no observable effect on the returned summary, so the
embedding folds over the list directly.  `self.results` / `self.failures`
are reset at entry and appended to in processing order. -/
def process_batch (fetch : String → FetchOutcome) (player_ids : List (String × String))
    (minutes_played : Option ℚ) (appearances : Option Int)
    (player_details : Option (List PlayerDetail)) : BatchSummary :=
  let position_lookup :=
    match player_details with
    | some ds => buildPositionLookup ds
    | none => []
  let step := fun (acc : List PlayerRecord × List PlayerRecord) (p : String × String) =>
    match process_player fetch p.1 p.2 minutes_played appearances
        (assocGet position_lookup p.1) with
    | ProcessOutcome.success r => (acc.1 ++ [r], acc.2)
    | ProcessOutcome.failure r => (acc.1, acc.2 ++ [r])
  let acc := player_ids.foldl step ([], [])
  { total := player_ids.length
    successful := acc.1.length
    failed := acc.2.length
    results := acc.1
    failures := acc.2 }

/-- Non-array test (`isinstance(result, (list, tuple))` failing). -/
def isArrB : Json → Bool
  | Json.arr _ => true
  | _ => false

/-- Non-dict test (`isinstance(result, dict)` failing). -/
def isObjB : Json → Bool
  | Json.obj _ => true
  | _ => false

/-- Claim C5 as stated, specialised to its own parenthetical: whenever some
resolution step applies an index accessor to a value that is not an array,
`deep_get` is claimed to yield absence for the whole path. -/
def wrongTypeIndexYieldsAbsence : Prop :=
  ∀ (obj : Json) (front : List PathPart) (i : Int) (rest : List PathPart) (v : Json),
    deep_get obj front = some v → isArrB v = false →
    deep_get obj (front ++ PathPart.idx i :: rest) = none

/-- A dict whose field `a` holds a dict (not an array): the input on which
the claimed behaviour fails. -/
def nestedDictObj : Json := Json.obj [("a", Json.obj [("b", Json.num 5)])]

/-- A fetch collaborator for the batch-isolation scenario: player `p3`
raises a generic failure, every other player fetches a well-formed
response without a GraphQL `errors` key. -/
def oneBadFetch : String → FetchOutcome := fun pid =>
  if pid = "p3" then FetchOutcome.exn "simulated generic failure"
  else FetchOutcome.ok (Json.obj [("data", Json.obj [])])

/-- A batch of 5 players, as `(player_id, player_name)` pairs. -/
def fivePlayers : List (String × String) :=
  [("p1", "A"), ("p2", "B"), ("p3", "C"), ("p4", "D"), ("p5", "E")]

/-- Metrics with a small carry count (0.6), chosen so that the default and
the BACK_ROW unstructured weight tables give visibly different scores. -/
def lowCarryMetrics : ExtractedMetrics := [("carries", some (Json.num 0.6))]

/-- A raw response holding a tackle-success percentage of 2 and one red
card (both never-rescaled metrics), and nothing else. -/
def pctAndCardRaw : Json :=
  Json.obj [("data", Json.obj [("playerseasonstats", Json.arr [Json.obj
    [("player_stats", Json.obj [("playerStats", Json.obj
      [("defence", Json.obj [("percentTackleMade", Json.num 2)]),
       ("discipline", Json.obj [("redCard", Json.num 1)])])])]])])]

/-- The extraction of the empty response: every metric absent. -/
def allAbsentExtracted : ExtractedMetrics := extract_metrics (Json.obj [])

/-- The composite result of blending three sub-scores of 50 with the
default weights. -/
def compositeFifty : CompositeResult :=
  { score := 50, breakdown_unstructured := 20, breakdown_defensive := 20,
    breakdown_discipline := 10,
    method := "composite blend (attack 40%, defence 40%, discipline 20%)" }

/-- A three-entry blend weight vector summing to exactly zero. -/
def zeroSumBlend : BlendWeights := { unstructured := 0, defensive := 0, discipline := 0 }

/-- A three-entry blend weight vector with a negative sum. -/
def negSumBlend : BlendWeights := { unstructured := -1, defensive := 0, discipline := 0 }

/-- The result the code returns for the negative-sum blend vector: the
guard yields composite 0, and the breakdown divides by the negative sum. -/
def negSumComposite : CompositeResult :=
  { score := 0, breakdown_unstructured := 50, breakdown_defensive := 0,
    breakdown_discipline := 0,
    method := "composite blend (attack 40%, defence 40%, discipline 20%)" }

-- ======================================================================
-- Theorems
-- ======================================================================

/-- Resolution of a concatenated path continues from the value the front
part resolved to (`deep_get`'s loop is a fold over the parsed parts). -/
theorem deepGo_append : ∀ (p : List PathPart) (cur : Json) (q : List PathPart),
    deepGo cur (p ++ q) = Option.bind (deepGo cur p) (fun v => deepGo v q)
  | [], cur, q => by simp [deepGo]
  | PathPart.key k :: rest, cur, q => by
    cases cur <;> simp [deepGo]
    case obj fields =>
      cases h : denull (getField fields k) <;>
        simp [h, deepGo_append rest]
  | PathPart.idx i :: rest, cur, q => by
    cases cur <;> simp [deepGo] <;>
      try exact deepGo_append rest _ q
    case arr elems =>
      cases h : denull (pyListGet elems i) <;>
        simp [h, deepGo_append rest]

/-- On a non-`null` root, `deep_get` is its traversal loop. -/
theorem deep_get_eq_deepGo (obj : Json) (h : obj ≠ Json.null) (parts : List PathPart) :
    deep_get obj parts = deepGo obj parts := by
  cases obj <;> first | exact absurd rfl h | rfl

/-- A resolved front part is never the embedded `null` (Python `None` is
returned as absence, not as a value). -/
theorem deep_get_ne_null (obj : Json) (parts : List PathPart) (v : Json)
    (h : deep_get obj parts = some v) : obj ≠ Json.null := by
  intro hobj
  subst hobj
  exact Option.noConfusion h

/-- C4: Field Mapper totality.  For every input value, of any shape,
`extract_metrics` returns a mapping whose key list is exactly the fixed
13-name metric vocabulary, each key bound to an `Option` value (the
explicit absence marker being `none`); being a total function of the
embedding, it raises nothing (every `KeyError`/`IndexError` hazard inside
`deep_get` is absorbed into absence). -/
theorem extract_metrics_key_set_invariant (raw : Json) :
    (extract_metrics raw).map Prod.fst = metricVocabulary := rfl

/-- C5 counterexample: the claim "an index accessor applied to a non-array
value yields absence for that path" is false on the code.  On
`{"a": {"b": 5}}` the path `a[0].b` resolves front part `a` to a dict
(not an array), yet `deep_get` returns `5` rather than `None`: the source
has no `else` branch for the index-on-non-array case and silently skips
the step. -/
theorem deep_get_skips_index_on_non_array : ¬ wrongTypeIndexYieldsAbsence := by
  intro h
  have hres := h nestedDictObj [PathPart.key "a"] 0 [PathPart.key "b"]
    (Json.obj [("b", Json.num 5)]) rfl rfl
  have hconcrete : deep_get nestedDictObj
      ([PathPart.key "a"] ++ PathPart.idx 0 :: [PathPart.key "b"]) = some (Json.num 5) := rfl
  rw [hres] at hconcrete
  exact Option.noConfusion hconcrete

/-- C5 amended: during path resolution, a missing key (or a key whose
stored value is `None`), a key accessor applied to a non-dict value, and
an out-of-range index on an array each yield absence for the whole path;
but an index accessor applied to a non-array value leaves the current
value unchanged and resolution continues with the remaining steps. -/
theorem deep_get_step_semantics (obj : Json) (front : List PathPart) (v : Json)
    (hv : deep_get obj front = some v) :
    (∀ k rest, isObjB v = false → deep_get obj (front ++ PathPart.key k :: rest) = none) ∧
    (∀ fields k rest, v = Json.obj fields → denull (getField fields k) = none →
       deep_get obj (front ++ PathPart.key k :: rest) = none) ∧
    (∀ elems i rest, v = Json.arr elems → denull (pyListGet elems i) = none →
       deep_get obj (front ++ PathPart.idx i :: rest) = none) ∧
    (∀ i rest, isArrB v = false →
       deep_get obj (front ++ PathPart.idx i :: rest) = deep_get obj (front ++ rest)) := by
  have hobj := deep_get_ne_null obj front v hv
  have hgo : deepGo obj front = some v := by
    rw [← deep_get_eq_deepGo obj hobj]
    exact hv
  have key : ∀ (X : List PathPart), deep_get obj (front ++ X) = deepGo v X := by
    intro X
    rw [deep_get_eq_deepGo obj hobj, deepGo_append, hgo]
    rfl
  refine ⟨?_, ?_, ?_, ?_⟩
  · intro k rest hno
    rw [key]
    cases v <;> simp_all [isObjB, deepGo]
  · intro fields k rest hvf hden
    subst hvf
    rw [key]
    simp [deepGo, hden]
  · intro elems i rest hvf hden
    subst hvf
    rw [key]
    simp [deepGo, hden]
  · intro i rest hno
    rw [key, key]
    cases v <;> simp_all [isArrB, deepGo]

/-- C5 amended, witness: on `{"a": {"b": 5}}`, the skipped index step makes
`a[0].b` resolve like `a.b`, and a missing key under `a` yields absence. -/
theorem deep_get_step_semantics_witness :
    deep_get nestedDictObj [PathPart.key "a", PathPart.idx 0, PathPart.key "b"]
      = deep_get nestedDictObj [PathPart.key "a", PathPart.key "b"] ∧
    deep_get nestedDictObj [PathPart.key "a", PathPart.key "zz", PathPart.key "b"] = none := by
  have h := deep_get_step_semantics nestedDictObj [PathPart.key "a"]
    (Json.obj [("b", Json.num 5)]) rfl
  exact ⟨h.2.2.2 0 [PathPart.key "b"] rfl,
         h.2.1 [("b", Json.num 5)] "zz" [PathPart.key "b"] rfl rfl⟩

/-- Looking up a key that is in the source list of a tabulated map hits
that key's entry. -/
theorem lookupVal_map_self (l : List String) (f : String → Option Json) (k : String)
    (h : k ∈ l) : lookupVal (l.map fun x => (x, f x)) k = some (f k) := by
  induction l with
  | nil => cases h
  | cons x xs ih =>
    show (if x = k then some (f x) else lookupVal (xs.map fun x => (x, f x)) k) = some (f k)
    by_cases hx : x = k
    · subst hx
      simp
    · have hmem : k ∈ xs := by
        cases h with
        | head => exact absurd rfl hx
        | tail _ h => exact h
      simp [hx, ih hmem]

/-- Any value found in a tabulated map is the tabulating function's value
at the key. -/
theorem lookupVal_map_val (l : List String) (f : String → Option Json) (k : String)
    (v : Option Json) (h : lookupVal (l.map fun x => (x, f x)) k = some v) : v = f k := by
  induction l with
  | nil => exact Option.noConfusion h
  | cons x xs ih =>
    have h' : (if x = k then some (f x) else lookupVal (xs.map fun x => (x, f x)) k)
        = some v := h
    by_cases hx : x = k
    · subst hx
      simp at h'
      rw [← h']
    · rw [if_neg hx] at h'
      exact ih h'

/-- A present numeric metric is scaled, rounded and stored by
`scaleEntry`. -/
theorem scaleEntry_num (em : ExtractedMetrics) (factor : ℚ) (metric : String) (q : ℚ)
    (h : toNumOpt (dictGet em metric) = some q) :
    scaleEntry em factor metric = some (Json.num (round2 (q * factor))) := by
  cases hd : dictGet em metric with
  | none => rw [hd] at h; exact Option.noConfusion h
  | some v =>
    rw [hd] at h
    have hv : toNum v = some q := h
    simp [scaleEntry, hd, hv]

/-- An absent metric stays absent in a scaled view entry. -/
theorem scaleEntry_absent (em : ExtractedMetrics) (factor : ℚ) (metric : String)
    (h : dictGet em metric = none) : scaleEntry em factor metric = none := by
  simp [scaleEntry, h]

/-- C6: normalization precedence and rounding.  If minutes are provided and
positive the per-80-minutes basis is recorded and every present numeric
normalizable metric is stored as `round(val * 80/minutes, 2)`, regardless
of whether appearances are also provided; otherwise if appearances are
provided and positive the per-appearance basis is recorded with factor
`1/appearances`; otherwise the flagged raw basis is recorded with no
scaled views and the raw values passed through unchanged. -/
theorem normalize_metrics_precedence (em : ExtractedMetrics) (minutes_played : Option ℚ)
    (appearances : Option Int) :
    (∀ m, minutes_played = some m → 0 < m →
      (normalize_metrics em minutes_played appearances).normalization_applied
          = some "per_80_min" ∧
      ∀ metric q, metric ∈ normalizable → toNumOpt (dictGet em metric) = some q →
        lookupVal (normalize_metrics em minutes_played appearances).per_80_min metric
          = some (some (Json.num (round2 (q * (80 / m)))))) ∧
    ((∀ m, minutes_played = some m → ¬ 0 < m) →
      ∀ a, appearances = some a → 0 < a →
      (normalize_metrics em minutes_played appearances).normalization_applied
          = some "per_appearance" ∧
      ∀ metric q, metric ∈ normalizable → toNumOpt (dictGet em metric) = some q →
        lookupVal (normalize_metrics em minutes_played appearances).per_appearance metric
          = some (some (Json.num (round2 (q * (1 / (a : ℚ))))))) ∧
    ((∀ m, minutes_played = some m → ¬ 0 < m) →
      (∀ a, appearances = some a → ¬ 0 < a) →
      (normalize_metrics em minutes_played appearances).normalization_applied
          = some "raw (no minutes or appearances)" ∧
      (normalize_metrics em minutes_played appearances).per_80_min = [] ∧
      (normalize_metrics em minutes_played appearances).per_appearance = [] ∧
      (normalize_metrics em minutes_played appearances).raw = em) := by
  refine ⟨?_, ?_, ?_⟩
  · intro m hm hpos
    have hq : qOptPos minutes_played = some m := by simp [hm, qOptPos, hpos]
    refine ⟨by simp [normalize_metrics, hq], ?_⟩
    intro metric q hmem hnum
    simp only [normalize_metrics, hq]
    rw [lookupVal_map_self normalizable _ metric hmem,
        scaleEntry_num em (80 / m) metric q hnum]
  · intro hm a ha hapos
    have hq : qOptPos minutes_played = none := by
      cases hmin : minutes_played with
      | none => rfl
      | some m => simp [qOptPos, hm m hmin]
    have hz : zOptPos appearances = some a := by simp [ha, zOptPos, hapos]
    refine ⟨by simp [normalize_metrics, hq, hz], ?_⟩
    intro metric q hmem hnum
    simp only [normalize_metrics, hq, hz]
    rw [lookupVal_map_self normalizable _ metric hmem,
        scaleEntry_num em (1 / (a : ℚ)) metric q hnum]
  · intro hm ha
    have hq : qOptPos minutes_played = none := by
      cases hmin : minutes_played with
      | none => rfl
      | some m => simp [qOptPos, hm m hmin]
    have hz : zOptPos appearances = none := by
      cases happ : appearances with
      | none => rfl
      | some a => simp [zOptPos, ha a happ]
    simp [normalize_metrics, hq, hz]

/-- C6 witness: minutes 40 and appearances 2 together choose the
per-80-minutes basis (carries 5 becomes `round(5 * 2, 2)`); appearances
alone choose per-appearance; neither chooses the flagged raw basis. -/
theorem normalize_metrics_precedence_witness :
    (normalize_metrics [("carries", some (Json.num 5))] (some 40)
        (some 2)).normalization_applied = some "per_80_min" ∧
    lookupVal (normalize_metrics [("carries", some (Json.num 5))] (some 40)
        (some 2)).per_80_min "carries"
      = some (some (Json.num (round2 (5 * (80 / 40))))) ∧
    (normalize_metrics [("carries", some (Json.num 5))] none
        (some 2)).normalization_applied = some "per_appearance" ∧
    (normalize_metrics [("carries", some (Json.num 5))] none
        none).normalization_applied = some "raw (no minutes or appearances)" := by
  have h1 := (normalize_metrics_precedence [("carries", some (Json.num 5))] (some 40)
    (some 2)).1 40 rfl (by norm_num)
  have h2 := (normalize_metrics_precedence [("carries", some (Json.num 5))] none
    (some 2)).2.1 (fun m hm => Option.noConfusion hm) 2 rfl (by norm_num)
  have h3 := (normalize_metrics_precedence [("carries", some (Json.num 5))] none
    none).2.2 (fun m hm => Option.noConfusion hm) (fun a ha => Option.noConfusion ha)
  exact ⟨h1.1, h1.2 "carries" 5 (by decide) rfl, h2.1, h3.1⟩

/-- Removing a metric with no present numeric value from a weight table
does not change the accumulated weighted total. -/
theorem weightedTotal_erase (scale : String → ℚ → ℚ) (metrics : ExtractedMetrics)
    (metric : String) (w : ℚ) (h : toNumOpt (dictGet metrics metric) = none) :
    ∀ (l1 l2 : List (String × ℚ)),
      weightedTotal scale metrics (l1 ++ (metric, w) :: l2)
        = weightedTotal scale metrics (l1 ++ l2)
  | [], l2 => by simp [weightedTotal, h]
  | (m0, w0) :: l1, l2 => by
    have ih := weightedTotal_erase scale metrics metric w h l1 l2
    show _ + weightedTotal scale metrics (l1 ++ (metric, w) :: l2)
        = _ + weightedTotal scale metrics (l1 ++ l2)
    rw [ih]

/-- A non-empty explicit weight table is used as given (`weights or
DEFAULT` falls back only on `None` or an empty dict). -/
theorem resolveWeights_of_ne_nil (l dflt : List (String × ℚ)) (h : l ≠ []) :
    resolveWeights (some l) dflt = l := by
  cases l with
  | nil => exact absurd rfl h
  | cons x xs => rfl

/-- C7: absence propagation.  A metric absent in `ExtractedMetrics` is
stored as the absence marker (never zero) in whichever scaled view
`normalize_metrics` builds, survives unchanged in the raw view, and is
excluded entirely from the weighted sum of every sub-score computation:
deleting its weight-table entry changes neither the accumulated total nor
any of the three sub-scores. -/
theorem absent_metric_propagation (em : ExtractedMetrics) (minutes_played : Option ℚ)
    (appearances : Option Int) (metric : String) (habs : dictGet em metric = none) :
    (∀ stored,
      lookupVal (normalize_metrics em minutes_played appearances).per_80_min metric
          = some stored → stored = none) ∧
    (∀ stored,
      lookupVal (normalize_metrics em minutes_played appearances).per_appearance metric
          = some stored → stored = none) ∧
    dictGet (normalize_metrics em minutes_played appearances).raw metric = none ∧
    (∀ (scale : String → ℚ → ℚ) (l1 l2 : List (String × ℚ)) (w : ℚ),
      weightedTotal scale em (l1 ++ (metric, w) :: l2)
        = weightedTotal scale em (l1 ++ l2)) ∧
    (∀ (l1 l2 : List (String × ℚ)) (w : ℚ), l1 ++ l2 ≠ [] →
      (compute_unstructured_impact_score em (some (l1 ++ (metric, w) :: l2))).score
          = (compute_unstructured_impact_score em (some (l1 ++ l2))).score ∧
      (compute_defensive_reliability_score em (some (l1 ++ (metric, w) :: l2))).score
          = (compute_defensive_reliability_score em (some (l1 ++ l2))).score ∧
      (compute_discipline_risk_index em (some (l1 ++ (metric, w) :: l2))).score
          = (compute_discipline_risk_index em (some (l1 ++ l2))).score) := by
  have hnum : toNumOpt (dictGet em metric) = none := by rw [habs]; rfl
  have hview : ∀ (factor : ℚ) (stored : Option Json),
      lookupVal (normalizable.map fun x => (x, scaleEntry em factor x)) metric
        = some stored → stored = none := by
    intro factor stored hst
    rw [lookupVal_map_val normalizable _ metric stored hst,
        scaleEntry_absent em factor metric habs]
  have hmid : ∀ (l1 l2 : List (String × ℚ)) (w : ℚ), l1 ++ (metric, w) :: l2 ≠ [] := by
    intro l1 l2 w
    simp
  refine ⟨?_, ?_, ?_, fun scale l1 l2 w => weightedTotal_erase scale em metric w hnum l1 l2, ?_⟩
  · intro stored hst
    cases hq : qOptPos minutes_played with
    | some m =>
      simp only [normalize_metrics, hq] at hst
      exact hview (80 / m) stored hst
    | none =>
      cases hz : zOptPos appearances with
      | some a => simp [normalize_metrics, hq, hz, lookupVal] at hst
      | none => simp [normalize_metrics, hq, hz, lookupVal] at hst
  · intro stored hst
    cases hq : qOptPos minutes_played with
    | some m => simp [normalize_metrics, hq, lookupVal] at hst
    | none =>
      cases hz : zOptPos appearances with
      | some a =>
        simp only [normalize_metrics, hq, hz] at hst
        exact hview (1 / (a : ℚ)) stored hst
      | none => simp [normalize_metrics, hq, hz, lookupVal] at hst
  · cases hq : qOptPos minutes_played with
    | some m => simpa only [normalize_metrics, hq] using habs
    | none =>
      cases hz : zOptPos appearances with
      | some a => simpa only [normalize_metrics, hq, hz] using habs
      | none => simpa only [normalize_metrics, hq, hz] using habs
  · intro l1 l2 w hne
    refine ⟨?_, ?_, ?_⟩
    · show round2 (max 0 (min 100 (weightedTotal unstructuredScale em
          (resolveWeights (some (l1 ++ (metric, w) :: l2)) UNSTRUCTURED_PLAY_WEIGHTS) * 100)))
        = round2 (max 0 (min 100 (weightedTotal unstructuredScale em
          (resolveWeights (some (l1 ++ l2)) UNSTRUCTURED_PLAY_WEIGHTS) * 100)))
      rw [resolveWeights_of_ne_nil _ _ (hmid l1 l2 w), resolveWeights_of_ne_nil _ _ hne,
          weightedTotal_erase unstructuredScale em metric w hnum l1 l2]
    · show round2 (max 0 (min 100 (weightedTotal defensiveScale em
          (resolveWeights (some (l1 ++ (metric, w) :: l2)) DEFENSIVE_RELIABILITY_WEIGHTS) * 100)))
        = round2 (max 0 (min 100 (weightedTotal defensiveScale em
          (resolveWeights (some (l1 ++ l2)) DEFENSIVE_RELIABILITY_WEIGHTS) * 100)))
      rw [resolveWeights_of_ne_nil _ _ (hmid l1 l2 w), resolveWeights_of_ne_nil _ _ hne,
          weightedTotal_erase defensiveScale em metric w hnum l1 l2]
    · show round2 (max 0 (min 100 (100 + max (-100) (weightedTotal disciplineScale em
          (resolveWeights (some (l1 ++ (metric, w) :: l2)) DISCIPLINE_RISK_WEIGHTS)))))
        = round2 (max 0 (min 100 (100 + max (-100) (weightedTotal disciplineScale em
          (resolveWeights (some (l1 ++ l2)) DISCIPLINE_RISK_WEIGHTS)))))
      rw [resolveWeights_of_ne_nil _ _ (hmid l1 l2 w), resolveWeights_of_ne_nil _ _ hne,
          weightedTotal_erase disciplineScale em metric w hnum l1 l2]

/-- C7 witness: with only tackles present, dropping the absent
`missed_tackles` entry from the defensive weight table leaves both the
weighted total and the defensive score unchanged. -/
theorem absent_metric_propagation_witness :
    (compute_defensive_reliability_score [("tackles", some (Json.num 10))]
        (some [("tackles", 0.40), ("missed_tackles", -0.15)])).score
      = (compute_defensive_reliability_score [("tackles", some (Json.num 10))]
        (some [("tackles", 0.40)])).score ∧
    weightedTotal defensiveScale [("tackles", some (Json.num 10))]
        ([("tackles", 0.40)] ++ ("missed_tackles", -0.15) :: [])
      = weightedTotal defensiveScale [("tackles", some (Json.num 10))]
        ([("tackles", 0.40)] ++ []) := by
  have h := absent_metric_propagation [("tackles", some (Json.num 10))] (some 80) none
    "missed_tackles" rfl
  exact ⟨(h.2.2.2.2 [("tackles", 0.40)] [] (-0.15) (by simp)).2.1,
         h.2.2.2.1 defensiveScale [("tackles", 0.40)] [] (-0.15)⟩

/-- Rounding to two decimals is monotone. -/
theorem round2_mono {a b : ℚ} (h : a ≤ b) : round2 a ≤ round2 b := by
  unfold round2
  have hr : round (100 * a) ≤ round (100 * b) := by
    rw [round_eq, round_eq]
    exact Int.floor_le_floor (by linarith)
  have hc : ((round (100 * a) : ℤ) : ℚ) ≤ ((round (100 * b) : ℤ) : ℚ) :=
    Int.cast_le.mpr hr
  exact div_le_div_of_nonneg_right hc (by norm_num)

/-- Rounding to two decimals preserves the [0, 100] band. -/
theorem round2_bounds {q : ℚ} (h0 : 0 ≤ q) (h1 : q ≤ 100) :
    0 ≤ round2 q ∧ round2 q ≤ 100 := by
  have hz : round2 0 = 0 := by
    unfold round2
    norm_num
  have hh : round2 100 = 100 := by
    unfold round2
    rw [show ((100 : ℚ) * 100) = ((10000 : ℤ) : ℚ) by norm_num, round_intCast]
    norm_num
  constructor
  · rw [← hz]
    exact round2_mono h0
  · rw [← hh]
    exact round2_mono h1

/-- The clamp `max(0, min(100, x))` lands in [0, 100]. -/
theorem clamp_bounds (x : ℚ) : 0 ≤ max 0 (min 100 x) ∧ max 0 (min 100 x) ≤ 100 :=
  ⟨le_max_left 0 _, max_le (by norm_num) (min_le_left _ _)⟩

/-- C8: score bounds.  For every metrics mapping (any finite numeric or
absent values, however pathological) and in fact for every weight table,
each of the three sub-scores lies in [0, 100]; and whenever the composite
blend returns a result, its score lies in [0, 100] as well. -/
theorem all_scores_bounded (metrics : ExtractedMetrics)
    (w1 w2 w3 : Option (List (String × ℚ))) (u d di : ℚ) (bw : Option BlendWeights) :
    (0 ≤ (compute_unstructured_impact_score metrics w1).score ∧
      (compute_unstructured_impact_score metrics w1).score ≤ 100) ∧
    (0 ≤ (compute_defensive_reliability_score metrics w2).score ∧
      (compute_defensive_reliability_score metrics w2).score ≤ 100) ∧
    (0 ≤ (compute_discipline_risk_index metrics w3).score ∧
      (compute_discipline_risk_index metrics w3).score ≤ 100) ∧
    (∀ c, compute_composite_contribution_score u d di bw = Except.ok c →
      0 ≤ c.score ∧ c.score ≤ 100) := by
  refine ⟨?_, ?_, ?_, ?_⟩
  · have h := clamp_bounds (weightedTotal unstructuredScale metrics
      (resolveWeights w1 UNSTRUCTURED_PLAY_WEIGHTS) * 100)
    exact round2_bounds h.1 h.2
  · have h := clamp_bounds (weightedTotal defensiveScale metrics
      (resolveWeights w2 DEFENSIVE_RELIABILITY_WEIGHTS) * 100)
    exact round2_bounds h.1 h.2
  · have h := clamp_bounds (100 + max (-100) (weightedTotal disciplineScale metrics
      (resolveWeights w3 DISCIPLINE_RISK_WEIGHTS)))
    exact round2_bounds h.1 h.2
  · intro c hc
    unfold compute_composite_contribution_score at hc
    by_cases htw : (bw.getD COMPOSITE_BLEND_WEIGHTS).unstructured
        + (bw.getD COMPOSITE_BLEND_WEIGHTS).defensive
        + (bw.getD COMPOSITE_BLEND_WEIGHTS).discipline = 0
    · simp [htw] at hc
    · simp only [htw, if_neg, reduceCtorEq] at hc
      have hscore := congrArg CompositeResult.score (Except.ok.inj hc)
      rw [← hscore]
      have h := clamp_bounds (if 0 < (bw.getD COMPOSITE_BLEND_WEIGHTS).unstructured
          + (bw.getD COMPOSITE_BLEND_WEIGHTS).defensive
          + (bw.getD COMPOSITE_BLEND_WEIGHTS).discipline then
        (u * (bw.getD COMPOSITE_BLEND_WEIGHTS).unstructured
          + d * (bw.getD COMPOSITE_BLEND_WEIGHTS).defensive
          + di * (bw.getD COMPOSITE_BLEND_WEIGHTS).discipline)
          / ((bw.getD COMPOSITE_BLEND_WEIGHTS).unstructured
            + (bw.getD COMPOSITE_BLEND_WEIGHTS).defensive
            + (bw.getD COMPOSITE_BLEND_WEIGHTS).discipline)
        else 0)
      exact round2_bounds h.1 h.2

/-- C8 witness: bounds hold at a pathological input (10000 carries) and at
the concrete composite blend of three 50s under default weights. -/
theorem all_scores_bounded_witness :
    (0 ≤ (compute_unstructured_impact_score [("carries", some (Json.num 10000))] none).score ∧
      (compute_unstructured_impact_score [("carries", some (Json.num 10000))] none).score ≤ 100) ∧
    (0 ≤ compositeFifty.score ∧ compositeFifty.score ≤ 100) := by
  have h := all_scores_bounded [("carries", some (Json.num 10000))] none none none
    50 50 50 none
  have hok : compute_composite_contribution_score 50 50 50 none = Except.ok compositeFifty := by
    norm_num [compute_composite_contribution_score, COMPOSITE_BLEND_WEIGHTS, compositeFifty,
      round2, round_eq, max_def, min_def]
  exact ⟨h.1, h.2.2.2 compositeFifty hok⟩

/-- C9: the guard `total / total_weights if total_weights > 0 else 0`
protects only the composite value; the per-component breakdown divides by
`total_weights` unguarded.  A three-entry weight vector summing to exactly
zero therefore raises `ZeroDivisionError` instead of returning score 0,
while a negative-sum vector does return score 0 without error. -/
theorem composite_zero_sum_weights_raise :
    compute_composite_contribution_score 50 50 50 (some zeroSumBlend)
      = Except.error "ZeroDivisionError: float division by zero" ∧
    compute_composite_contribution_score 50 50 50 (some negSumBlend)
      = Except.ok negSumComposite := by
  constructor
  · norm_num [compute_composite_contribution_score, zeroSumBlend]
  · norm_num [compute_composite_contribution_score, negSumBlend, negSumComposite,
      round2, round_eq, max_def, min_def]

/-- C10: all-absent edge case.  When every metric in the vocabulary is
absent (the extraction of an empty response), the pipeline returns
unstructured impact 0, defensive reliability 0, discipline risk 100 (the
clean-record maximum despite no evidence), and composite contribution 20
under the default blend weights. -/
theorem all_absent_metrics_scores :
    allAbsentExtracted.all (fun entry => entry.2.isNone) = true ∧
    (compute_all_scores (normalize_metrics allAbsentExtracted none none)).map
      (fun s => (s.unstructured_impact.score, s.defensive_reliability.score,
                 s.discipline_risk.score, s.composite_contribution.score))
      = Except.ok (0, 0, 100, 20) := by
  refine ⟨rfl, ?_⟩
  norm_num [allAbsentExtracted, extract_metrics, ALL_EXPECTED_METRICS,
    UNSTRUCTURED_PLAY_METRICS, DEFENSIVE_METRICS, DISCIPLINE_METRICS, tryPaths, statPath,
    deep_get, deepGo, getField, denull, normalize_metrics, qOptPos, zOptPos,
    compute_all_scores, compute_unstructured_impact_score,
    compute_defensive_reliability_score, compute_discipline_risk_index,
    compute_composite_contribution_score, weightedTotal, scoreComponents, resolveWeights,
    dictGet, toNumOpt, toNum, UNSTRUCTURED_PLAY_WEIGHTS, DEFENSIVE_RELIABILITY_WEIGHTS,
    DISCIPLINE_RISK_WEIGHTS, COMPOSITE_BLEND_WEIGHTS, round2, round_eq, max_def, min_def,
    Except.map]

/-- C1: batch isolation fails in the stated scenario.  `process_player`
does catch every in-pipeline exception (it is a total function into
recorded outcomes), but the scoring call it makes raises `TypeError` for
every player (unexpected keyword `player_position`), so in a batch of 5
players where only player 3 raises a generic failure, ALL 5 players are
recorded as failures: the summary is successful 0 / failed 5, not the
claimed 4 / 1, and the results list is empty. -/
theorem batch_with_one_bad_player_all_fail :
    (process_batch oneBadFetch fivePlayers none none none).total = 5 ∧
    (process_batch oneBadFetch fivePlayers none none none).successful = 0 ∧
    (process_batch oneBadFetch fivePlayers none none none).failed = 5 ∧
    (process_batch oneBadFetch fivePlayers none none none).failures.map
      (fun r => (r.player_id, r.error)) =
      [("p1", some "TypeError: compute_all_scores() got an unexpected keyword argument \x27player_position\x27"),
       ("p2", some "TypeError: compute_all_scores() got an unexpected keyword argument \x27player_position\x27"),
       ("p3", some "simulated generic failure"),
       ("p4", some "TypeError: compute_all_scores() got an unexpected keyword argument \x27player_position\x27"),
       ("p5", some "TypeError: compute_all_scores() got an unexpected keyword argument \x27player_position\x27")] := by
  exact ⟨rfl, rfl, rfl, rfl⟩

set_option maxHeartbeats 2000000 in
/-- C2: role-aware weighting never happens.  Position "8" does resolve to
BACK_ROW, but the scoring call the batch pipeline makes raises `TypeError`
(`compute_all_scores` has no position parameter), and `compute_all_scores`
itself always scores with the global default weight tables: on carries
0.6 it yields unstructured score 20, whereas the BACK_ROW unstructured
weight table would yield 30. -/
theorem role_weights_never_reach_scoring :
    get_role_from_position (some "8") = some "BACK_ROW" ∧
    callComputeAllScores (normalize_metrics lowCarryMetrics none none) (some "8")
      = Except.error
        "TypeError: compute_all_scores() got an unexpected keyword argument \x27player_position\x27" ∧
    (compute_all_scores (normalize_metrics lowCarryMetrics none none)).map
      (fun s => s.unstructured_impact.score) = Except.ok 20 ∧
    (compute_unstructured_impact_score lowCarryMetrics
      (some (get_role_weights (some "BACK_ROW")).unstructured)).score = 30 := by
  have hnm : normalize_metrics lowCarryMetrics none none
      = { raw := lowCarryMetrics, per_80_min := [], per_appearance := [],
          normalization_applied := some "raw (no minutes or appearances)",
          notes_minutes := none, notes_appearances := none } := rfl
  have hbw : (get_role_weights (some "BACK_ROW")).unstructured
      = [("carries", 0.30), ("metres_made", 0.15), ("offloads", 0.15),
         ("clean_breaks", 0.15), ("defenders_beaten", 0.15)] := rfl
  refine ⟨rfl, rfl, ?_, ?_⟩
  · rw [hnm]
    simp only [compute_all_scores, compute_unstructured_impact_score,
      compute_defensive_reliability_score, compute_discipline_risk_index,
      compute_composite_contribution_score, weightedTotal, scoreComponents,
      resolveWeights, lowCarryMetrics, dictGet, toNumOpt, toNum, unstructuredScale,
      defensiveScale, disciplineScale, UNSTRUCTURED_PLAY_WEIGHTS,
      DEFENSIVE_RELIABILITY_WEIGHTS, DISCIPLINE_RISK_WEIGHTS, COMPOSITE_BLEND_WEIGHTS,
      String.reduceEq, reduceIte]
    norm_num [round2, round_eq, max_def, min_def, Except.map]
  · rw [hbw]
    simp only [compute_unstructured_impact_score, weightedTotal, scoreComponents,
      resolveWeights, lowCarryMetrics, dictGet, toNumOpt, toNum, unstructuredScale,
      String.reduceEq, reduceIte]
    norm_num [round2, round_eq, max_def, min_def]

set_option maxHeartbeats 2000000 in
/-- C3: never-rescaled metrics do NOT survive normalization into scoring.
With `tackle_success_pct = 2` and `red_cards = 1` extracted and minutes 80
supplied, the per-80-minutes view omits both metrics entirely (they are
not in the `normalizable` list), and `compute_all_scores` selects that
whole view, so the defensive score treats the percentage as absent
(score 0, not 70) and the discipline score treats the red card as absent
(score 100, not 95) — instead of selecting their raw values as claimed. -/
theorem normalized_view_drops_unrescaled_metrics :
    toNumOpt (dictGet (extract_metrics pctAndCardRaw) "tackle_success_pct") = some 2 ∧
    toNumOpt (dictGet (extract_metrics pctAndCardRaw) "red_cards") = some 1 ∧
    (normalize_metrics (extract_metrics pctAndCardRaw) (some 80)
        none).normalization_applied = some "per_80_min" ∧
    lookupVal (normalize_metrics (extract_metrics pctAndCardRaw) (some 80)
        none).per_80_min "tackle_success_pct" = none ∧
    lookupVal (normalize_metrics (extract_metrics pctAndCardRaw) (some 80)
        none).per_80_min "red_cards" = none ∧
    (compute_all_scores (normalize_metrics (extract_metrics pctAndCardRaw) (some 80)
        none)).map
      (fun s => (s.defensive_reliability.score, s.discipline_risk.score))
      = Except.ok (0, 100) ∧
    (compute_defensive_reliability_score (extract_metrics pctAndCardRaw) none).score = 70 ∧
    (compute_discipline_risk_index (extract_metrics pctAndCardRaw) none).score = 95 := by
  have hext : extract_metrics pctAndCardRaw
      = [("carries", none), ("metres_made", none), ("offloads", none),
         ("clean_breaks", none), ("defenders_beaten", none), ("tackles", none),
         ("missed_tackles", none), ("turnovers_won", none), ("lineout_steals", none),
         ("tackle_success_pct", some (Json.num 2)), ("penalties_conceded", none),
         ("yellow_cards", none), ("red_cards", some (Json.num 1))] := rfl
  have hnm : normalize_metrics (extract_metrics pctAndCardRaw) (some 80) none
      = { raw := extract_metrics pctAndCardRaw,
          per_80_min := [("carries", none), ("metres_made", none), ("offloads", none),
            ("clean_breaks", none), ("defenders_beaten", none), ("tackles", none),
            ("missed_tackles", none), ("turnovers_won", none), ("lineout_steals", none),
            ("penalties_conceded", none)],
          per_appearance := [], normalization_applied := some "per_80_min",
          notes_minutes := some 80, notes_appearances := none } := rfl
  refine ⟨rfl, rfl, rfl, rfl, rfl, ?_, ?_, ?_⟩
  · rw [hnm]
    simp only [compute_all_scores, compute_unstructured_impact_score,
      compute_defensive_reliability_score, compute_discipline_risk_index,
      compute_composite_contribution_score, weightedTotal, scoreComponents,
      resolveWeights, dictGet, toNumOpt, toNum, unstructuredScale, defensiveScale,
      disciplineScale, UNSTRUCTURED_PLAY_WEIGHTS, DEFENSIVE_RELIABILITY_WEIGHTS,
      DISCIPLINE_RISK_WEIGHTS, COMPOSITE_BLEND_WEIGHTS, String.reduceEq, reduceIte]
    norm_num [round2, round_eq, max_def, min_def, Except.map]
  · rw [hext]
    simp only [compute_defensive_reliability_score, weightedTotal, scoreComponents,
      resolveWeights, dictGet, toNumOpt, toNum, defensiveScale,
      DEFENSIVE_RELIABILITY_WEIGHTS, String.reduceEq, reduceIte]
    norm_num [round2, round_eq, max_def, min_def]
  · rw [hext]
    simp only [compute_discipline_risk_index, weightedTotal, scoreComponents,
      resolveWeights, dictGet, toNumOpt, toNum, disciplineScale, DISCIPLINE_RISK_WEIGHTS,
      String.reduceEq, reduceIte]
    norm_num [round2, round_eq, max_def, min_def]

end Rugby
